import Mathlib

/-
Verification development for the device-state orchestrator in src/Server.py.
The Python class DeviceStateManager is shallowly embedded: its mutable fields
become the structure DSM, each decorated method becomes a pure function from a
DSM plus the outcome of the serial transaction to a Step record carrying the
new DSM, the list of ser.write byte payloads issued, the list of emitted
status_update payloads, and the call result. The decorator
safe_serial_operation (src/Server.py lines 189-208) is embedded as a
combinator; the threading.Lock it acquires is not reentrant, so a nested call
of a decorated method while the lock is held blocks forever, which the
embedding records as the result CallResult.deadlock.
-/

namespace Server

/-- DeviceError enum of src/Server.py lines 36-45 (error kind only; message and
http status are presentation data not needed by any claim). -/
inductive DeviceError
  | TIMEOUT
  | INTERNAL_ERROR
  | INVALID_OPERATION
  | CONNECTION_ERROR
deriving DecidableEq, Repr

/-- The class-level switch_map of src/Server.py lines 65-70, an
insertion-ordered dict from switch name to device command number. -/
def switch_map : List (String × Nat) :=
  [("Alpha", 2), ("Bravo", 3), ("Charlie", 4), ("Delta", 5)]

/-- The keys of switch_map in declaration order, as produced by
list(self.switch_map.keys()). -/
def switch_names : List String := switch_map.map Prod.fst

/-- Mutable state of a DeviceStateManager instance (src/Server.py lines
74-90) together with its configuration parameters. current_status is the
cached snapshot (Python stores 0/1 ints initially and bools after the first
decode; Python equality identifies False with 0 and True with 1, so booleans
model both faithfully). ser_open models (self.ser is not None and
self.ser.is_open); a None handle and a closed handle behave identically in
every guard of the source. -/
structure DSM where
  current_status : List Bool
  device_connected : Bool
  ser_open : Bool
  failure_count : Nat
  last_failure_time : Option Nat
  min_retry_interval : Nat
  max_retry_interval : Nat
  poll_interval : Nat
  failure_reset_interval : Nat
  max_failure_threshold : Nat
deriving DecidableEq, Repr

/-- Status dictionary returned to callers, as built by get_status_dict. -/
def StatusDict := List (String × Nat)
deriving DecidableEq, Repr

/-- get_status_dict of src/Server.py lines 251-253: zips the switch names with
the cached status and renders each boolean as 0 or 1. -/
def get_status_dict (s : DSM) : StatusDict :=
  (switch_names.zip s.current_status).map (fun p => (p.1, if p.2 then 1 else 0))

/-- failure_count_check of src/Server.py lines 141-151: first the time-based
reset (strictly more than failure_reset_interval since the last failure), then
the threshold trip that forces device_connected to false and zeroes the
counter. -/
def failure_count_check (s : DSM) (now : Nat) : DSM :=
  let s1 :=
    match s.last_failure_time with
    | some t =>
        if s.failure_reset_interval < now - t then
          { s with failure_count := 0, last_failure_time := none }
        else s
    | none => s
  if s1.max_failure_threshold ≤ s1.failure_count then
    { s1 with device_connected := false, failure_count := 0, last_failure_time := none }
  else s1

/-- Outcome of the single serial transaction attempted by update_status: the
write or read raises serial.SerialTimeoutException, raises another
serial.SerialException, readline respectively returns an empty line, a line
that int() cannot parse, or a line parsing to the integer n. -/
inductive Wire
  | serialTimeoutExc
  | serialExc
  | emptyResponse
  | badResponse
  | value (n : Nat)
deriving DecidableEq, Repr

/-- Outcome of the batched toggle write in set_switch_state: it returns, or
raises serial.SerialTimeoutException, or raises another SerialException. -/
inductive WriteOutcome
  | wok
  | wtimeout
  | wioerr
deriving DecidableEq, Repr

/-- How the body of a decorated method finishes, before the decorator handles
it: a normal return, a raised DeviceException, a raised
serial.SerialTimeoutException, a raised other serial.SerialException, or
blocking forever on a nested acquisition of the non-reentrant lock. -/
inductive PyOutcome
  | ok (d : StatusDict)
  | devExc (e : DeviceError)
  | serialTimeout
  | serialErr
  | blocked
deriving DecidableEq, Repr

/-- What a caller of a decorated method observes: a returned value, a raised
DeviceException of the given kind, or no return at all (deadlock). -/
inductive CallResult
  | ok (d : StatusDict)
  | err (e : DeviceError)
  | deadlock
deriving DecidableEq, Repr

/-- Result of running the body of a decorated method: updated state, the
byte payloads passed to ser.write so far, the status_update payloads emitted
so far, and how the body finished. -/
structure Inner where
  state : DSM
  writes : List (List Nat)
  emits : List StatusDict
  out : PyOutcome
deriving DecidableEq, Repr

/-- Result of a call of a decorated method as the caller sees it. -/
structure Step where
  state : DSM
  writes : List (List Nat)
  emits : List StatusDict
  result : CallResult
deriving DecidableEq, Repr

/-- State change shared by every failure-recording site (src/Server.py lines
196-197, 201-202, 222-223): increment failure_count and stamp the time. -/
def record_failure (s : DSM) (now : Nat) : DSM :=
  { s with failure_count := s.failure_count + 1, last_failure_time := some now }

/-- safe_serial_operation of src/Server.py lines 189-208. It acquires
self.lock, a non-reentrant threading.Lock: if the calling context already
holds the lock the acquisition blocks forever (deadlock, no body runs).
Otherwise it runs the body and classifies exceptions: SerialTimeoutException
increments the failure counter and raises DeviceException(TIMEOUT);
other SerialException increments the counter and raises
DeviceException(CONNECTION_ERROR); the blanket except Exception clause also
catches every DeviceException raised inside the body and re-raises it as
DeviceException(INTERNAL_ERROR), discarding the original kind. -/
def safe_serial_operation (lock_held : Bool) (body : DSM → Inner) (s : DSM) (now : Nat) :
    Step :=
  if lock_held = true then
    { state := s, writes := [], emits := [], result := .deadlock }
  else
    let r := body s
    match r.out with
    | .ok d => { state := r.state, writes := r.writes, emits := r.emits, result := .ok d }
    | .serialTimeout =>
        { state := record_failure r.state now,
          writes := r.writes, emits := r.emits, result := .err .TIMEOUT }
    | .serialErr =>
        { state := record_failure r.state now,
          writes := r.writes, emits := r.emits, result := .err .CONNECTION_ERROR }
    | .devExc _ =>
        { state := r.state, writes := r.writes, emits := r.emits,
          result := .err .INTERNAL_ERROR }
    | .blocked =>
        { state := r.state, writes := r.writes, emits := r.emits, result := .deadlock }

/-- Bytes of the status query b"6\n" written at src/Server.py line 217. -/
def query_bytes : List Nat := [0x36, 0x0A]

/-- Status decoding of src/Server.py lines 234-239: new_status masks the
parsed response with 1, 2, 4, 8 in the declaration order Alpha, Bravo,
Charlie, Delta. Pure and total over every parsed value. -/
def decode_status (n : Nat) : List Bool :=
  [decide (0 < n &&& 0b0001), decide (0 < n &&& 0b0010),
   decide (0 < n &&& 0b0100), decide (0 < n &&& 0b1000)]

/-- Body of update_status, src/Server.py lines 211-249: connection guard,
query write, response handling, decode, conditional cache replacement and
conditional status_update emission, and return of get_status_dict. -/
def update_status_body (s : DSM) (wire : Wire) (now : Nat) (notify_clients : Bool) :
    Inner :=
  if s.ser_open = false then
    { state := { s with device_connected := false }, writes := [], emits := [],
      out := .devExc .CONNECTION_ERROR }
  else
    match wire with
    | .serialTimeoutExc =>
        { state := s, writes := [query_bytes], emits := [], out := .serialTimeout }
    | .serialExc =>
        { state := s, writes := [query_bytes], emits := [], out := .serialErr }
    | .emptyResponse =>
        { state := record_failure s now,
          writes := [query_bytes], emits := [], out := .devExc .TIMEOUT }
    | .badResponse =>
        { state := s, writes := [query_bytes], emits := [], out := .devExc .INTERNAL_ERROR }
    | .value n =>
        let new_status := decode_status n
        if new_status ≠ s.current_status then
          let s2 := { s with current_status := new_status }
          { state := s2, writes := [query_bytes],
            emits := if notify_clients = true then [get_status_dict s2] else [],
            out := .ok (get_status_dict s2) }
        else
          { state := s, writes := [query_bytes], emits := [],
            out := .ok (get_status_dict s) }

/-- update_status as callers see it (body wrapped by safe_serial_operation).
lock_held records whether the calling context already holds self.lock; every
top-level caller in the source passes false, while the nested call inside
set_switch_state holds the lock. -/
def update_status (s : DSM) (wire : Wire) (now : Nat) (notify_clients lock_held : Bool) :
    Step :=
  safe_serial_operation lock_held
    (fun st => update_status_body st wire now notify_clients) s now

/-- Bytes appended to the command string for one toggled switch with device
number k: the ASCII digit of k followed by a newline, from the f-string at
src/Server.py line 277 encoded as utf-8. -/
def toggle_bytes (k : Nat) : List Nat := [0x30 + k, 0x0A]

/-- Device command number of a switch name, self.switch_map lookup. -/
def switch_number (name : String) : Nat := (switch_map.lookup name).getD 0

/-- Position of a switch name in list(self.switch_map.keys()), the index used
to address current_status at src/Server.py lines 270 and 287. -/
def status_index (name : String) : Nat := switch_names.findIdx (fun x => x == name)

/-- Body of set_switch_state, src/Server.py lines 256-295: connection guard,
name validation, command-string construction skipping entries that already
match the cache, one batched write when the string is nonempty, then the
nested call self.update_status(notify_clients=True). That nested call goes
through the safe_serial_operation wrapper, which re-acquires the
non-reentrant self.lock already held by this call, so it deadlocks; the
verification loop and the success return below it are translated faithfully
but are unreachable. -/
def set_switch_state_body (s : DSM) (switch_states : List (String × Bool)) (wire : Wire)
    (toggle_write : WriteOutcome) (now : Nat) : Inner :=
  if s.ser_open = false then
    { state := { s with device_connected := false }, writes := [], emits := [],
      out := .devExc .CONNECTION_ERROR }
  else
    let invalid_switches :=
      (switch_states.map Prod.fst).filter (fun name => ¬ switch_names.contains name)
    if invalid_switches ≠ [] then
      { state := s, writes := [], emits := [], out := .devExc .INVALID_OPERATION }
    else
      let commands := switch_states.foldl (fun acc p =>
        if s.current_status.getD (status_index p.1) false = p.2 then acc
        else acc ++ toggle_bytes (switch_number p.1)) []
      let first_writes := if commands = [] then ([] : List (List Nat)) else [commands]
      match (if commands = [] then WriteOutcome.wok else toggle_write) with
      | .wtimeout =>
          { state := s, writes := first_writes, emits := [], out := .serialTimeout }
      | .wioerr =>
          { state := s, writes := first_writes, emits := [], out := .serialErr }
      | .wok =>
          let nested := update_status s wire now true true
          match nested.result with
          | .deadlock =>
              { state := nested.state, writes := first_writes ++ nested.writes,
                emits := nested.emits, out := .blocked }
          | .err e =>
              { state := nested.state, writes := first_writes ++ nested.writes,
                emits := nested.emits, out := .devExc e }
          | .ok _ =>
              let mismatched := switch_states.filter (fun p =>
                ¬ (nested.state.current_status.getD (status_index p.1) false = p.2))
              if mismatched ≠ [] then
                { state := nested.state, writes := first_writes ++ nested.writes,
                  emits := nested.emits, out := .devExc .INTERNAL_ERROR }
              else
                { state := nested.state, writes := first_writes ++ nested.writes,
                  emits := nested.emits, out := .ok (get_status_dict nested.state) }

/-- set_switch_state as callers see it (body wrapped by
safe_serial_operation). -/
def set_switch_state (s : DSM) (switch_states : List (String × Bool)) (wire : Wire)
    (toggle_write : WriteOutcome) (now : Nat) (lock_held : Bool) : Step :=
  safe_serial_operation lock_held
    (fun st => set_switch_state_body st switch_states wire toggle_write now) s now

/-- Sequence of stop_event.wait intervals produced by the retry loop of
attempt_reconnection (src/Server.py lines 153-168) when exactly the given
number of connect_to_device attempts fail before one succeeds: each failed
attempt waits the current interval and then doubles it, capped at the second
configuration value. -/
def reconnection_waits (maxI : Nat) : Nat → Nat → List Nat
  | _, 0 => []
  | ri, n + 1 => ri :: reconnection_waits maxI (min (ri * 2) maxI) n

/-- Waits of one call (one reconnection episode) of attempt_reconnection with
the given number of failed attempts before success; retry_interval is a local
variable initialized to min_retry_interval, so every episode starts there. -/
def attempt_reconnection_waits (s : DSM) (failures : Nat) : List Nat :=
  reconnection_waits s.max_retry_interval s.min_retry_interval failures

/-- DeviceStateManager state right after a successful connection, with the
configuration defaults of src/Server.py lines 74-82 and the initial cache
[0, 0, 0, 0] of line 84. -/
def init_state : DSM :=
  { current_status := [false, false, false, false], device_connected := true,
    ser_open := true, failure_count := 0, last_failure_time := none,
    min_retry_interval := 10, max_retry_interval := 300, poll_interval := 5,
    failure_reset_interval := 600, max_failure_threshold := 5 }

/-- State in which the serial handle is absent or closed. -/
def closed_state : DSM := { init_state with ser_open := false }

/-- Configuration of the backoff example in the claims: minimum 10 seconds,
maximum 60 seconds. -/
def s1060 : DSM := { init_state with min_retry_interval := 10, max_retry_interval := 60 }

/-- State transition of one failing transaction (empty response) performed at
time 0 without client notification. -/
def fail_step (s : DSM) : DSM := (update_status s .emptyResponse 0 false false).state

/-- State after four consecutive failing transactions from init_state. -/
def c3_s4 : DSM := fail_step (fail_step (fail_step (fail_step init_state)))

/-- State after the fifth transaction, a successful one. -/
def c3_s5 : DSM := (update_status c3_s4 (.value 0) 0 false false).state

/-- State after one further failing transaction following the success. -/
def c3_s6 : DSM := fail_step c3_s5

/-- Two snapshot dictionaries agree whenever the cached statuses agree. -/
lemma get_status_dict_congr {a b : DSM} (h : a.current_status = b.current_status) :
    get_status_dict a = get_status_dict b := by
  unfold get_status_dict
  rw [h]

/-- First wait of a reconnection episode is the initial interval. -/
lemma reconnection_waits_head (maxI ri n : Nat) (h : n ≠ 0) :
    (reconnection_waits maxI ri n).getD 0 0 = ri := by
  cases n with
  | zero => exact absurd rfl h
  | succ m => simp [reconnection_waits]

/-- Each wait after the first doubles the previous one, capped at maxI. -/
lemma reconnection_waits_step :
    ∀ (n i maxI ri : Nat), i + 1 < n →
      (reconnection_waits maxI ri n).getD (i + 1) 0
        = min ((reconnection_waits maxI ri n).getD i 0 * 2) maxI := by
  intro n
  induction n with
  | zero => intro i maxI ri h; exact absurd h (by omega)
  | succ m ih =>
    intro i maxI ri h
    cases i with
    | zero =>
      cases m with
      | zero => exact absurd h (by omega)
      | succ k => simp [reconnection_waits]
    | succ j =>
      have hj : j + 1 < m := by omega
      have hrec := ih j maxI (min (ri * 2) maxI) hj
      simpa [reconnection_waits] using hrec

/-- Bitmask test in decode_status agrees with Nat.testBit. -/
lemma decide_and_pow (n i : Nat) : decide (0 < n &&& 2 ^ i) = n.testBit i := by
  cases h : n.testBit i with
  | false => simp [Nat.and_two_pow, h]
  | true => simp [Nat.and_two_pow, h, Nat.pos_pow_of_pos]

/-- C1: the claim expects a request with a key outside {Alpha, Bravo, Charlie,
Delta} to fail with InvalidOperation and no device I/O. In the code, the body
of set_switch_state does raise DeviceException(INVALID_OPERATION) before any
write, but the safe_serial_operation decorator catches that exception in its
blanket except Exception clause and re-raises DeviceException(INTERNAL_ERROR),
so the caller observes the Internal kind. Zero writes and zero emissions do
hold. -/
theorem c1_invalid_key_internal :
    (set_switch_state_body init_state [("Echo", true)] (.value 0) .wok 0).out
      = .devExc .INVALID_OPERATION ∧
    (set_switch_state init_state [("Echo", true)] (.value 0) .wok 0 false).result
      = .err .INTERNAL_ERROR ∧
    (set_switch_state init_state [("Echo", true)] (.value 0) .wok 0 false).writes = [] ∧
    (set_switch_state init_state [("Echo", true)] (.value 0) .wok 0 false).emits = [] := by
  decide

/-- C2: the claim expects refresh_status and set_switch_states to fail with
ConnectionError while the link is not open. The bodies do raise
DeviceException(CONNECTION_ERROR) at the connection guard, but the decorator
catches every DeviceException in its except Exception clause and re-raises
DeviceException(INTERNAL_ERROR), so both operations surface the Internal
kind to the caller. -/
theorem c2_link_down_internal :
    (update_status_body closed_state (.value 0) 0 true).out
      = .devExc .CONNECTION_ERROR ∧
    (update_status closed_state (.value 0) 0 true false).result
      = .err .INTERNAL_ERROR ∧
    (set_switch_state_body closed_state [("Alpha", true)] (.value 0) .wok 0).out
      = .devExc .CONNECTION_ERROR ∧
    (set_switch_state closed_state [("Alpha", true)] (.value 0) .wok 0 false).result
      = .err .INTERNAL_ERROR := by
  decide

/-- C3 (counterexample): after four failing transactions, one successful
transaction (result ok) and a single further failure, the failure counter
reads 5 because success never resets it, and failure_count_check forces the
disconnect even though only one failure occurred after the success; the claim
says the forced-disconnect condition cannot fire until five failures
accumulate counted from that success. -/
theorem c3_counterexample :
    (update_status c3_s4 (.value 0) 0 false false).result
      = .ok [("Alpha", 0), ("Bravo", 0), ("Charlie", 0), ("Delta", 0)] ∧
    c3_s4.failure_count = 4 ∧
    c3_s5.failure_count = 4 ∧
    c3_s6.failure_count = 5 ∧
    c3_s6.max_failure_threshold = 5 ∧
    (failure_count_check c3_s6 0).device_connected = false ∧
    (failure_count_check c3_s6 0).failure_count = 0 := by
  decide

/-- C3 (amended): a failing transaction increments the failure counter by one,
a successful transaction leaves it unchanged (it is never reset on success),
and once the counter has reached max_failure_threshold, failure_count_check
forces device_connected to false and zeroes the counter, provided the
time-based reset does not apply. -/
theorem c3_amended_failure_counting (s : DSM) (now : Nat) (n : Nat) (nc : Bool) :
    (s.ser_open = true →
      (update_status s .emptyResponse now nc false).state.failure_count
          = s.failure_count + 1 ∧
      (update_status s .serialExc now nc false).state.failure_count
          = s.failure_count + 1 ∧
      (update_status s (.value n) now nc false).state.failure_count
          = s.failure_count) ∧
    (s.max_failure_threshold ≤ s.failure_count →
      (∀ t, s.last_failure_time = some t → now - t ≤ s.failure_reset_interval) →
      (failure_count_check s now).device_connected = false ∧
      (failure_count_check s now).failure_count = 0) := by
  constructor
  · intro hopen
    refine ⟨?_, ?_, ?_⟩
    · simp [update_status, safe_serial_operation, update_status_body, hopen, record_failure]
    · simp [update_status, safe_serial_operation, update_status_body, hopen, record_failure]
    · by_cases hc : decode_status n = s.current_status <;>
        simp [update_status, safe_serial_operation, update_status_body, hopen, hc]
  · intro hth hrt
    unfold failure_count_check
    cases hl : s.last_failure_time with
    | none => simp [hth]
    | some t =>
      have hle := hrt t hl
      have hnot : ¬ s.failure_reset_interval < now - t := by omega
      simp [hnot, hth]

/-- C3 witness: the amended theorem applied to the concrete state c3_s6, in
which five failures have accumulated across an intervening success. -/
theorem c3_witness :
    ((update_status c3_s6 .emptyResponse 0 false false).state.failure_count
        = c3_s6.failure_count + 1 ∧
     (update_status c3_s6 .serialExc 0 false false).state.failure_count
        = c3_s6.failure_count + 1 ∧
     (update_status c3_s6 (.value 0) 0 false false).state.failure_count
        = c3_s6.failure_count) ∧
    ((failure_count_check c3_s6 0).device_connected = false ∧
     (failure_count_check c3_s6 0).failure_count = 0) :=
  ⟨(c3_amended_failure_counting c3_s6 0 0 false).1 (by decide),
   (c3_amended_failure_counting c3_s6 0 0 false).2 (by decide)
     (by
       intro t ht
       have h0 : c3_s6.last_failure_time = some 0 := by decide
       rw [h0] at ht
       injection ht with h1
       subst h1
       decide)⟩

/-- C4: status decoding is pure and total (decode_status is a total function),
bit i of the decoded integer gives the state of the i-th switch in declaration
order, a set bit means on, 0b0011 decodes to Alpha and Bravo on with Charlie
and Delta off, and 0b0000 decodes to all off. -/
theorem c4_decode_status_bits (n i : Nat) (h : i < 4) :
    (decode_status n).getD i false = n.testBit i ∧
    decode_status 0b0011 = [true, true, false, false] ∧
    decode_status 0b0000 = [false, false, false, false] := by
  refine ⟨?_, by decide, by decide⟩
  interval_cases i
  · simpa [decode_status] using decide_and_pow n 0
  · simpa [decode_status] using decide_and_pow n 1
  · simpa [decode_status] using decide_and_pow n 2
  · simpa [decode_status] using decide_and_pow n 3

/-- C4 witness: the decoding theorem applied at response value 11 and bit 3. -/
theorem c4_witness :
    3 < 4 ∧
    ((decode_status 11).getD 3 false = Nat.testBit 11 3 ∧
     decode_status 0b0011 = [true, true, false, false] ∧
     decode_status 0b0000 = [false, false, false, false]) :=
  ⟨by decide, c4_decode_status_bits 11 3 (by decide)⟩

/-- C5: the claim expects set_switch_states to succeed when the post-write
verification matches and to fail with Internal when it does not. In the code
neither outcome is reachable: the body of set_switch_state calls the
decorated self.update_status while the safe_serial_operation wrapper already
holds the non-reentrant threading.Lock, so the call blocks forever before the
verification refresh, for a matching device response (value 1 would report
Alpha on as requested) and a diverging one (value 0) alike. -/
theorem c5_deadlock_before_verification :
    (set_switch_state_body init_state [("Alpha", true)] (.value 1) .wok 0).out
      = .blocked ∧
    (set_switch_state init_state [("Alpha", true)] (.value 1) .wok 0 false).result
      = .deadlock ∧
    (set_switch_state init_state [("Alpha", true)] (.value 0) .wok 0 false).result
      = .deadlock := by
  decide

/-- C6: the claim expects toggle commands exactly for the entries differing
from the cache, followed by exactly one verification refresh whose snapshot is
returned. The toggle selection is honored (a request matching the cache writes
nothing; Alpha differing and Bravo matching writes only the Alpha command),
but the verification refresh deadlocks on the non-reentrant lock, so no
refresh completes and no snapshot is ever returned. -/
theorem c6_toggle_writes_deadlock :
    (set_switch_state init_state [("Alpha", false)] (.value 0) .wok 0 false).writes
      = [] ∧
    (set_switch_state init_state [("Alpha", false)] (.value 0) .wok 0 false).result
      = .deadlock ∧
    (set_switch_state init_state [("Alpha", true), ("Bravo", false)] (.value 0) .wok 0
        false).writes = [[0x32, 0x0A]] ∧
    (set_switch_state init_state [("Alpha", true), ("Bravo", false)] (.value 0) .wok 0
        false).result = .deadlock := by
  decide

/-- C7: during a reconnection episode the wait before the first retry equals
min_retry_interval, each subsequent wait is the double of the previous one
capped at max_retry_interval, every episode (in particular the one following a
successful reconnection) starts again at min_retry_interval because the
interval is a local variable of attempt_reconnection, and with minimum 10 and
maximum 60 the successive waits are 10, 20, 40, 60, 60, and 60 indefinitely. -/
theorem c7_backoff_schedule (s : DSM) (n i : Nat) :
    (n ≠ 0 → (attempt_reconnection_waits s n).getD 0 0 = s.min_retry_interval) ∧
    (i + 1 < n → (attempt_reconnection_waits s n).getD (i + 1) 0
        = min ((attempt_reconnection_waits s n).getD i 0 * 2) s.max_retry_interval) ∧
    attempt_reconnection_waits s1060 5 = [10, 20, 40, 60, 60] ∧
    attempt_reconnection_waits s1060 6 = [10, 20, 40, 60, 60, 60] := by
  refine ⟨?_, ?_, by decide, by decide⟩
  · intro h
    exact reconnection_waits_head s.max_retry_interval s.min_retry_interval n h
  · intro h
    exact reconnection_waits_step n i s.max_retry_interval s.min_retry_interval h

/-- C7 witness: the backoff theorem applied to the 10-to-60 configuration with
five failed attempts, at the first and the third wait. -/
theorem c7_witness :
    (5 ≠ 0) ∧
    (attempt_reconnection_waits s1060 5).getD 0 0 = s1060.min_retry_interval ∧
    (1 + 1 < 5) ∧
    (attempt_reconnection_waits s1060 5).getD 2 0
      = min ((attempt_reconnection_waits s1060 5).getD 1 0 * 2) s1060.max_retry_interval :=
  ⟨by decide, (c7_backoff_schedule s1060 5 1).1 (by decide), by decide,
   (c7_backoff_schedule s1060 5 1).2.1 (by decide)⟩

/-- C8 (counterexample): the claim says every command is a single byte, the
query being the one byte 0x36 and the Alpha toggle the byte value 2. The
query write issued by update_status is the two-byte payload 0x36 0x0A (the
string "6" plus a newline), and the Alpha toggle write is the two-byte payload
0x32 0x0A (the ASCII digit "2" plus a newline), not the byte value 2. -/
theorem c8_counterexample :
    (update_status init_state (.value 0) 0 false false).writes = [[0x36, 0x0A]] ∧
    [[(0x36 : Nat), 0x0A]] ≠ [[0x36]] ∧
    (set_switch_state init_state [("Alpha", true)] (.value 0) .wok 0 false).writes
      = [[0x32, 0x0A]] ∧
    [[(0x32 : Nat), 0x0A]] ≠ [[2]] := by
  decide

/-- C8 (amended): every command is a newline-terminated ASCII digit sent as
two bytes. Whenever the link is open, update_status writes exactly the query
payload 0x36 0x0A whatever the transaction outcome; the toggle payloads for
Alpha, Bravo, Charlie and Delta are the digits of their command numbers 2, 3,
4, 5 followed by a newline; and a request toggling Alpha writes exactly that
two-byte payload. -/
theorem c8_amended_command_bytes (s : DSM) (wire : Wire) (now : Nat) (nc : Bool)
    (hopen : s.ser_open = true) :
    (update_status s wire now nc false).writes = [query_bytes] ∧
    query_bytes = [0x36, 0x0A] ∧
    switch_map.map (fun p => toggle_bytes p.2)
      = [[0x32, 0x0A], [0x33, 0x0A], [0x34, 0x0A], [0x35, 0x0A]] ∧
    (set_switch_state init_state [("Alpha", true)] (.value 0) .wok 0 false).writes
      = [[0x32, 0x0A]] := by
  refine ⟨?_, by decide, by decide, ?_⟩
  · cases wire with
    | value n =>
      by_cases hc : decode_status n = s.current_status <;>
        simp [update_status, safe_serial_operation, update_status_body, hopen, hc]
    | serialTimeoutExc =>
      simp [update_status, safe_serial_operation, update_status_body, hopen]
    | serialExc =>
      simp [update_status, safe_serial_operation, update_status_body, hopen]
    | emptyResponse =>
      simp [update_status, safe_serial_operation, update_status_body, hopen]
    | badResponse =>
      simp [update_status, safe_serial_operation, update_status_body, hopen]
  · decide

/-- C8 witness: the amended theorem applied to init_state with a successful
transaction. -/
theorem c8_witness :
    init_state.ser_open = true ∧
    ((update_status init_state (.value 0) 0 false false).writes = [query_bytes] ∧
     query_bytes = [0x36, 0x0A] ∧
     switch_map.map (fun p => toggle_bytes p.2)
       = [[0x32, 0x0A], [0x33, 0x0A], [0x34, 0x0A], [0x35, 0x0A]] ∧
     (set_switch_state init_state [("Alpha", true)] (.value 0) .wok 0 false).writes
       = [[0x32, 0x0A]]) :=
  ⟨by decide, c8_amended_command_bytes init_state (.value 0) 0 false (by decide)⟩

/-- C9 (counterexample): a successful refresh that changes the cached snapshot
(response 3 against an all-false cache) emits no status_update when
notify_clients is false, the mode used by the forced-refresh API route and by
initialization; the claim requires an emission on every successful refresh
that changes the snapshot. -/
theorem c9_counterexample :
    (update_status init_state (.value 3) 0 false false).result
      = .ok [("Alpha", 1), ("Bravo", 1), ("Charlie", 0), ("Delta", 0)] ∧
    decode_status 3 ≠ init_state.current_status ∧
    (update_status init_state (.value 3) 0 false false).emits = [] := by
  decide

/-- C9 (amended): on a successful refresh, a status_update carrying the
current snapshot is emitted if and only if notify_clients is true and the
newly decoded snapshot differs from the cached one; calls with notify_clients
false never emit, and the returned value is always the snapshot of the
updated state. -/
theorem c9_amended_emit_condition (s : DSM) (n now : Nat) (nc : Bool)
    (hopen : s.ser_open = true) :
    (update_status s (.value n) now nc false).emits
      = (if nc = true ∧ decode_status n ≠ s.current_status
         then [get_status_dict { s with current_status := decode_status n }] else []) ∧
    (update_status s (.value n) now nc false).result
      = .ok (get_status_dict ((update_status s (.value n) now nc false).state)) := by
  by_cases hc : decode_status n = s.current_status
  · have hsame : get_status_dict { s with current_status := decode_status n }
        = get_status_dict s := get_status_dict_congr hc
    simp [update_status, safe_serial_operation, update_status_body, hopen, hc]
  · cases nc <;>
      simp [update_status, safe_serial_operation, update_status_body, hopen, hc]

/-- C9 witness: the amended theorem applied to init_state with response 3 and
notification enabled. -/
theorem c9_witness :
    init_state.ser_open = true ∧
    ((update_status init_state (.value 3) 0 true false).emits
       = (if true = true ∧ decode_status 3 ≠ init_state.current_status
          then [get_status_dict { init_state with current_status := decode_status 3 }]
          else []) ∧
     (update_status init_state (.value 3) 0 true false).result
       = .ok (get_status_dict ((update_status init_state (.value 3) 0 true false).state))) :=
  ⟨by decide, c9_amended_emit_condition init_state 3 0 true (by decide)⟩

/-- C10: whenever update_status finishes with an error of any kind, the cached
snapshot, and hence the dictionary served by the cached-status read, is
exactly what it was before the call; the cache is replaced only on a fully
successful decode. -/
theorem c10_cache_unchanged_on_error (s : DSM) (wire : Wire) (now : Nat) (nc lh : Bool)
    (e : DeviceError) (h : (update_status s wire now nc lh).result = .err e) :
    (update_status s wire now nc lh).state.current_status = s.current_status ∧
    get_status_dict ((update_status s wire now nc lh).state) = get_status_dict s := by
  have key : (update_status s wire now nc lh).state.current_status = s.current_status := by
    cases lh with
    | true => simp [update_status, safe_serial_operation] at h
    | false =>
      by_cases hopen : s.ser_open = true
      · cases wire with
        | value n =>
          by_cases hc : decode_status n = s.current_status <;>
            simp [update_status, safe_serial_operation, update_status_body, hopen, hc] at h
        | serialTimeoutExc =>
          simp [update_status, safe_serial_operation, update_status_body, hopen,
            record_failure]
        | serialExc =>
          simp [update_status, safe_serial_operation, update_status_body, hopen,
            record_failure]
        | emptyResponse =>
          simp [update_status, safe_serial_operation, update_status_body, hopen,
            record_failure]
        | badResponse =>
          simp [update_status, safe_serial_operation, update_status_body, hopen]
      · have hcl : s.ser_open = false := by
          cases hv : s.ser_open
          · rfl
          · exact absurd hv hopen
        cases wire <;>
          simp [update_status, safe_serial_operation, update_status_body, hcl]
  exact ⟨key, get_status_dict_congr key⟩

/-- C10 witness: the cache-preservation theorem applied to a closed link,
where the call fails with the Internal kind. -/
theorem c10_witness :
    (update_status closed_state (.value 7) 0 true false).result
        = .err .INTERNAL_ERROR ∧
    ((update_status closed_state (.value 7) 0 true false).state.current_status
        = closed_state.current_status ∧
     get_status_dict ((update_status closed_state (.value 7) 0 true false).state)
        = get_status_dict closed_state) :=
  ⟨by decide,
   c10_cache_unchanged_on_error closed_state (.value 7) 0 true false .INTERNAL_ERROR
     (by decide)⟩

end Server
